import Mathlib

/-
Verification development for the refly knowledge-management service.

This file gives a shallow embedding of the two backend services under
analysis (apps/api/src/knowledge/knowledge.service.ts and
apps/api/src/subscription/subscription.service.ts) and proves properties
about them.  Database tables are lists of rows, the blob store is an
association list, external collaborators (crawler, markdown cleaner,
word counter, JS Date calendar arithmetic) are parameters of an
environment record, and fallible external calls are modelled by
environment flags.  JavaScript truthiness and the "or-else" assignment
operator are modelled explicitly.
-/

deriving instance DecidableEq for Except

namespace Refly

/-- JS truthiness of a possibly-undefined string: undefined and the empty
string are falsy. -/
def truthy : Option String → Bool
  | none => false
  | some s => s != ""

/-- JS "a or-else b" on possibly-undefined strings, as used by the
"x ||= y" statements in the source: keeps a when it is truthy, otherwise
yields b. -/
def jsOrStr (a b : Option String) : Option String :=
  if truthy a then a else b

/-- JS "a || d" with a string default, as in "param.title || 'Untitled'". -/
def jsOrDefault (a : Option String) (d : String) : String :=
  if truthy a then a.getD "" else d

/-- JS template-literal stringification of a possibly-undefined value. -/
def jsStr : Option String → String
  | none => "undefined"
  | some s => s

/-- Errors thrown by the modelled service code. -/
inductive KErr where
  /-- NestJS BadRequestException. -/
  | badRequest (msg : String)
  /-- NestJS UnauthorizedException. -/
  | unauthorized
  /-- minio.downloadData threw: the object key does not exist. -/
  | downloadFailed (key : String)
  /-- ragService.crawlFromRemoteReader threw. -/
  | crawlFailed
  /-- minio.uploadData threw. -/
  | uploadFailed
  /-- ragService.indexContent threw. -/
  | indexFailed
  /-- ragService.saveDataForUser threw. -/
  | saveFailed
  /-- Prisma update matched no row (P2025) or got an undefined unique key. -/
  | recordNotFound
  /-- JS TypeError: reading a property of null or undefined. -/
  | typeError
deriving Repr, DecidableEq

/-- The JSON metadata blob carried by a resource (parsed form of the
"meta" column / the "data" field of an upsert request). -/
structure ResourceMeta where
  url : Option String
  linkId : Option String
  title : Option String
  storageKey : Option String
deriving Repr, DecidableEq

/-- A row of the resource table. -/
structure ResourceRow where
  resourceId : String
  userId : Nat
  resourceType : String
  title : String
  meta : Option ResourceMeta
  storageKey : Option String
  indexStatus : String
  wordCount : Nat
  isPublic : Bool
  readOnly : Bool
  updatedAt : Nat
  deletedAt : Option Nat
deriving Repr, DecidableEq

/-- A row of the collection table; resourceIds models the implicit
many-to-many join table between collections and resources. -/
structure CollectionRow where
  collectionId : String
  userId : Nat
  title : String
  description : Option String
  isPublic : Bool
  resourceIds : List String
  updatedAt : Nat
  deletedAt : Option Nat
deriving Repr, DecidableEq

/-- A row of the weblink table (prior crawl records). -/
structure WeblinkRow where
  linkId : String
  parsedDocStorageKey : String
deriving Repr, DecidableEq

/-- A row of the user table, as seen by the knowledge service. -/
structure UserRow where
  id : Nat
  uid : String
deriving Repr, DecidableEq

/-- The persistent state touched by the knowledge service: the relational
tables plus the minio blob store (an association list, newest entry
first, so an upload overwrites older entries with the same key). -/
structure KDB where
  users : List UserRow
  resources : List ResourceRow
  collections : List CollectionRow
  weblinks : List WeblinkRow
  blobs : List (String × String)
deriving Repr, DecidableEq

/-- Look a key up in the blob store. -/
def blobLookup (bs : List (String × String)) (k : String) : Option String :=
  (bs.find? (fun p => p.1 == k)).map (fun p => p.2)

/-- Store a value under a key in the blob store (overwrite semantics). -/
def putBlob (bs : List (String × String)) (k v : String) : List (String × String) :=
  (k, v) :: bs

/-- Environment of the knowledge service: the current instant, the
external collaborators (crawler, markdown cleaner, word counter) and
success flags for the fallible external calls of one ingestion run. -/
structure KEnv where
  now : Nat
  /-- ragService.crawlFromRemoteReader: url to (content, title); none
  models the call throwing. -/
  crawl : String → Option (String × String)
  /-- whether minio.uploadData succeeds on this run. -/
  uploadOk : Bool
  /-- whether ragService.indexContent succeeds on this run. -/
  indexContentOk : Bool
  /-- whether ragService.saveDataForUser succeeds on this run. -/
  saveForUserOk : Bool
  /-- cleanMarkdownForIngest from the refly utils package. -/
  clean : String → String
  /-- readingTime(content).words from the reading-time-estimator library. -/
  countWords : String → Nat

/-- One chunk submission to ragService.indexContent, with the metadata
object built at the call site. -/
structure ChunkSubmission where
  pageContent : String
  url : Option String
  title : Option String
  collectionId : Option String
  resourceId : Option String
deriving Repr, DecidableEq

/-- Observable side effects of one knowledge-service call. -/
structure KLog where
  uploads : List (String × String)
  submittedChunks : List ChunkSubmission
  savedForUser : Bool
  resourceUpdates : Nat
deriving Repr, DecidableEq

/-- The empty effect log. -/
def emptyLog : KLog := ⟨[], [], false, 0⟩

/-- An UpsertResourceRequest from the openapi schema, with the fields the
service reads. -/
structure UpsertResourceRequest where
  resourceId : Option String
  resourceType : String
  collectionId : Option String
  collectionName : Option String
  title : Option String
  content : Option String
  storageKey : Option String
  isPublic : Option Bool
  readOnly : Option Bool
  data : Option ResourceMeta
deriving Repr, DecidableEq

/-- The queue payload for finalizeResource: the original request plus the
owning user id. -/
structure FinalizeParam where
  userId : Nat
  req : UpsertResourceRequest
deriving Repr, DecidableEq

/-- Outcome of indexResource / finalizeResource: the result (JS return or
throw), the state left behind, and the effect log. -/
structure IndexOutcome where
  result : Except KErr Unit
  db : KDB
  log : KLog
deriving Repr, DecidableEq

/-- First phase of indexResource: the "param.storageKey ||= storageKey",
"param.content ||= ''" statements and the linkId block that rewrites
param.storageKey from a known prior weblink crawl record. -/
structure Resolved where
  storageKey : Option String
  content : String
  title : Option String
deriving Repr, DecidableEq

/-- Pure parameter-resolution phase of indexResource. -/
def initResolve (db : KDB) (param : UpsertResourceRequest) (pdata : ResourceMeta) :
    Resolved :=
  let sk := jsOrStr param.storageKey pdata.storageKey
  let c := param.content.getD ""
  let sk :=
    if truthy pdata.linkId then
      match db.weblinks.find? (fun w => w.linkId == pdata.linkId.getD "") with
      | some w => some w.parsedDocStorageKey
      | none => sk
    else sk
  ⟨sk, c, param.title⟩

/-- Result of the content-resolution phase: the storage key finally held
by the resource, the final content and title, the blob store after the
phase, and the uploads it performed. -/
structure ContentRes where
  key : String
  content : String
  title : Option String
  blobs : List (String × String)
  uploads : List (String × String)
deriving Repr, DecidableEq

/-- Content-resolution phase of indexResource: download when a storage
key is set, otherwise crawl the url when content is empty and then upload
under the deterministic key "resource/" ++ resourceId. -/
def resolveContent (env : KEnv) (blobs : List (String × String)) (rid : String)
    (r : Resolved) (url : Option String) : Except KErr ContentRes :=
  if truthy r.storageKey then
    match blobLookup blobs (r.storageKey.getD "") with
    | none => .error (.downloadFailed (r.storageKey.getD ""))
    | some c => .ok ⟨r.storageKey.getD "", c, r.title, blobs, []⟩
  else
    match (if r.content = "" ∧ truthy url then
        match env.crawl (url.getD "") with
        | none => Except.error KErr.crawlFailed
        | some ct => Except.ok (ct.1, jsOrStr r.title (some ct.2))
      else Except.ok (r.content, r.title)) with
    | .error e => .error e
    | .ok ct =>
      if env.uploadOk then
        .ok ⟨"resource/" ++ rid, ct.1, ct.2, putBlob blobs ("resource/" ++ rid) ct.1,
          [("resource/" ++ rid, ct.1)]⟩
      else .error .uploadFailed

/-- The storage key indexResource finally records for a request: the key
resolved from the request or a prior crawl record when truthy, otherwise
the deterministic resource/<resourceId> key it uploads under. -/
def finalKey (db : KDB) (param : UpsertResourceRequest) (pdata : ResourceMeta) :
    String :=
  if truthy (initResolve db param pdata).storageKey then
    (initResolve db param pdata).storageKey.getD ""
  else "resource/" ++ jsStr param.resourceId

/-- Result of the indexing phase: the chunks that reached
ragService.indexContent, whether saveDataForUser completed, and the
phase result. -/
structure IndexStage where
  submitted : List ChunkSubmission
  saved : Bool
  res : Except KErr Unit
deriving Repr, DecidableEq

/-- Indexing phase of indexResource: when content is non-empty, submit the
cleaned content with metadata (url, title, collectionId, resourceId) —
the title here is the one destructured from param.data — and then save
the chunks for the user. -/
def indexStage (env : KEnv) (content : String)
    (url dtitle collectionId resourceId : Option String) : IndexStage :=
  if content = "" then ⟨[], false, .ok ()⟩
  else
    let chunk : ChunkSubmission := ⟨env.clean content, url, dtitle, collectionId, resourceId⟩
    if env.indexContentOk then
      if env.saveForUserOk then ⟨[chunk], true, .ok ()⟩
      else ⟨[chunk], false, .error .saveFailed⟩
    else ⟨[chunk], false, .error .indexFailed⟩

/-- The final prisma.resource.update of indexResource: where
(resourceId, userId), setting storageKey, wordCount, indexStatus finish
and the normalized meta object (url, title: param.title, storageKey).
Returns none when no row matches (prisma throws P2025). -/
def applyFinishUpdate (env : KEnv) (rs : List ResourceRow) (rid : String) (userId : Nat)
    (key content : String) (url title : Option String) : Option (List ResourceRow) :=
  if rs.any (fun r => r.resourceId == rid && r.userId == userId) then
    some (rs.map (fun r =>
      if r.resourceId == rid && r.userId == userId then
        { r with storageKey := some key, wordCount := env.countWords content,
                 indexStatus := "finish",
                 meta := some ⟨url, none, title, some key⟩, updatedAt := env.now }
      else r))
  else none

/-- The indexResource method of KnowledgeService. -/
def indexResource (env : KEnv) (db : KDB) (user : UserRow)
    (param : UpsertResourceRequest) : IndexOutcome :=
  match param.data with
  | none => ⟨.error .typeError, db, emptyLog⟩
  | some pdata =>
    match resolveContent env db.blobs (jsStr param.resourceId)
        (initResolve db param pdata) pdata.url with
    | .error e => ⟨.error e, db, emptyLog⟩
    | .ok cr =>
      match indexStage env cr.content pdata.url pdata.title param.collectionId
          param.resourceId with
      | ⟨submitted, saved, .error e⟩ =>
        ⟨.error e, { db with blobs := cr.blobs }, ⟨cr.uploads, submitted, saved, 0⟩⟩
      | ⟨submitted, saved, .ok _⟩ =>
        match param.resourceId with
        | none =>
          ⟨.error .recordNotFound, { db with blobs := cr.blobs },
            ⟨cr.uploads, submitted, saved, 0⟩⟩
        | some ridv =>
          match applyFinishUpdate env db.resources ridv user.id cr.key cr.content
              pdata.url cr.title with
          | none =>
            ⟨.error .recordNotFound, { db with blobs := cr.blobs },
              ⟨cr.uploads, submitted, saved, 0⟩⟩
          | some rs =>
            ⟨.ok (), { db with blobs := cr.blobs, resources := rs },
              ⟨cr.uploads, submitted, saved, 1⟩⟩

/-- The catch-block update of finalizeResource: where (resourceId,
userId), setting indexStatus failed.  Returns none when no row matches. -/
def applyFailedUpdate (env : KEnv) (rs : List ResourceRow) (rid : Option String)
    (userId : Nat) : Option (List ResourceRow) :=
  match rid with
  | none => none
  | some r' =>
    if rs.any (fun r => r.resourceId == r' && r.userId == userId) then
      some (rs.map (fun r =>
        if r.resourceId == r' && r.userId == userId then
          { r with indexStatus := "failed", updatedAt := env.now }
        else r))
    else none

/-- The finalizeResource method of KnowledgeService: look the user up
(warn and return when absent), run indexResource, and on error mark the
resource failed and re-throw the original error. -/
def finalizeResource (env : KEnv) (db : KDB) (p : FinalizeParam) : IndexOutcome :=
  match db.users.find? (fun u => u.id == p.userId) with
  | none => ⟨.ok (), db, emptyLog⟩
  | some user =>
    match indexResource env db user p.req with
    | ⟨.ok u, db2, log⟩ => ⟨.ok u, db2, log⟩
    | ⟨.error e, db2, log⟩ =>
      match applyFailedUpdate env db2.resources p.req.resourceId user.id with
      | none => ⟨.error .recordNotFound, db2, log⟩
      | some rs =>
        ⟨.error e, { db2 with resources := rs },
          { log with resourceUpdates := log.resourceUpdates + 1 }⟩

/-- Outcome of createResource: the created row (or a thrown error), the
state left behind, and the finalize jobs enqueued to the queue. -/
structure CreateOutcome where
  result : Except KErr ResourceRow
  db : KDB
  enqueued : List FinalizeParam
deriving Repr, DecidableEq

/-- The prisma.resource.create call of createResource, together with its
connectOrCreate clause on the collection relation and the queue.add that
follows it. -/
def doCreateResource (env : KEnv) (db : KDB) (user : UserRow)
    (param : UpsertResourceRequest) : CreateOutcome :=
  let row : ResourceRow :=
    { resourceId := jsStr param.resourceId
      resourceType := param.resourceType
      meta := param.data
      storageKey := param.storageKey
      userId := user.id
      isPublic := param.isPublic.getD false
      readOnly := param.readOnly.getD false
      title := jsOrDefault param.title "Untitled"
      indexStatus := "processing"
      wordCount := 0
      updatedAt := env.now
      deletedAt := none }
  let cid := jsStr param.collectionId
  let colls :=
    if db.collections.any (fun c => c.collectionId == cid) then
      db.collections.map (fun c =>
        if c.collectionId == cid then
          { c with resourceIds := c.resourceIds ++ [row.resourceId] }
        else c)
    else
      db.collections ++
        [{ collectionId := cid
           userId := user.id
           title := jsOrDefault param.collectionName "Default Collection"
           description := none
           isPublic := false
           resourceIds := [row.resourceId]
           updatedAt := env.now
           deletedAt := none }]
  ⟨.ok row, { db with resources := db.resources ++ [row], collections := colls },
    [⟨user.id, param⟩]⟩

/-- The head of createResource before its validation block: set a fresh
resourceId, default a missing collectionId to a fresh one, and default a
missing readOnly flag from the resource type. -/
def normalizeCreateParam (param0 : UpsertResourceRequest)
    (freshRid freshCid : String) : UpsertResourceRequest :=
  match { param0 with resourceId := some freshRid } with
  | p1 =>
    match (if truthy p1.collectionId then p1
           else { p1 with collectionId := some freshCid }) with
    | p2 =>
      match p2.readOnly with
      | some _ => p2
      | none => { p2 with readOnly := some (p2.resourceType == "weblink") }

/-- The validation block and tail of createResource, run on the
normalized request: weblink requests must carry a data object holding a
url or a linkId, unknown types are rejected, and only then is the row
created and the finalize job enqueued. -/
def createResourceChecked (env : KEnv) (db : KDB) (user : UserRow)
    (param : UpsertResourceRequest) : CreateOutcome :=
  if param.resourceType == "weblink" then
    match param.data with
    | none => ⟨.error (.badRequest "data is required"), db, []⟩
    | some pdata =>
      if !truthy pdata.url && !truthy pdata.linkId then
        ⟨.error (.badRequest "url or linkId is required"), db, []⟩
      else
        doCreateResource env db user { param with title := jsOrStr param.title pdata.title }
  else if param.resourceType == "note" then
    doCreateResource env db user param
  else
    ⟨.error (.badRequest "Invalid resource type"), db, []⟩

/-- The createResource method of KnowledgeService.  freshRid and freshCid
model the ids produced by genResourceID / genCollectionID. -/
def createResource (env : KEnv) (db : KDB) (user : UserRow)
    (param0 : UpsertResourceRequest) (freshRid freshCid : String) : CreateOutcome :=
  createResourceChecked env db user (normalizeCreateParam param0 freshRid freshCid)

/-- An UpsertCollectionRequest from the openapi schema. -/
structure UpsertCollectionRequest where
  collectionId : Option String
  title : Option String
  description : Option String
  isPublic : Option Bool
deriving Repr, DecidableEq

/-- The upsertCollection method of KnowledgeService: generate an id when
none is given, then prisma.collection.upsert keyed on collectionId alone —
the update branch applies the request fields to whatever row holds that
collectionId, with no ownership check. -/
def upsertCollection (env : KEnv) (db : KDB) (user : UserRow)
    (param : UpsertCollectionRequest) (freshCid : String) : KDB :=
  let cid := if truthy param.collectionId then param.collectionId.getD "" else freshCid
  if db.collections.any (fun c => c.collectionId == cid) then
    { db with collections := db.collections.map (fun c =>
        if c.collectionId == cid then
          { c with
            title := (param.title).getD c.title
            description :=
              match param.description with
              | some d => some d
              | none => c.description
            isPublic := (param.isPublic).getD c.isPublic
            updatedAt := env.now }
        else c) }
  else
    { db with collections := db.collections ++
        [{ collectionId := cid
           userId := user.id
           title := (param.title).getD ""
           description := param.description
           isPublic := (param.isPublic).getD false
           resourceIds := []
           updatedAt := env.now
           deletedAt := none }] }

/-- Insert into a list kept sorted by a Nat key, descending (stable). -/
def insertDescBy {α : Type} (key : α → Nat) (a : α) : List α → List α
  | [] => [a]
  | b :: l => if key a ≤ key b then b :: insertDescBy key a l else a :: b :: l

/-- Sort a list by a Nat key, descending (models prisma orderBy desc). -/
def sortDescBy {α : Type} (key : α → Nat) (l : List α) : List α :=
  l.foldr (insertDescBy key) []

/-- Prisma skip/take pagination: skip (page - 1) * pageSize rows and take
pageSize rows. -/
def paginate {α : Type} (l : List α) (page pageSize : Nat) : List α :=
  (l.drop ((page - 1) * pageSize)).take pageSize

/-- The listCollections method of KnowledgeService. -/
def listCollections (db : KDB) (user : UserRow) (page pageSize : Nat) :
    List CollectionRow :=
  paginate
    (sortDescBy (fun c => c.updatedAt)
      (db.collections.filter (fun c => c.userId == user.id && c.deletedAt == none)))
    page pageSize

/-- The parameter record of listResources, with the optional page and
pageSize destructuring defaults of the source. -/
structure ListResourcesParam where
  resourceId : Option String
  collectionId : Option String
  page : Option Nat
  pageSize : Option Nat
deriving Repr, DecidableEq

/-- The listResources method of KnowledgeService.  When a collectionId is
given, the query filters deletedAt on the collection rows and includes
their related resources with pagination and ordering but no deletedAt
filter on the resources themselves; otherwise it queries the resource
table directly with a deletedAt filter. -/
def listResources (db : KDB) (param : ListResourcesParam) : List ResourceRow :=
  let page := param.page.getD 1
  let pageSize := param.pageSize.getD 10
  if truthy param.collectionId then
    let cid := param.collectionId.getD ""
    match db.collections.filter
        (fun c => c.collectionId == cid && c.deletedAt == none) with
    | [] => []
    | c :: _ =>
      paginate
        (sortDescBy (fun r => r.updatedAt)
          (db.resources.filter (fun r => c.resourceIds.contains r.resourceId)))
        page pageSize
  else
    paginate
      (sortDescBy (fun r => r.updatedAt)
        (db.resources.filter (fun r =>
          (match param.resourceId with
           | none => true
           | some rid => r.resourceId == rid) && r.deletedAt == none)))
      page pageSize

/-- Errors thrown by the modelled subscription service code. -/
inductive SErr where
  /-- JS TypeError: reading a property of null or undefined
  (sub.subscriptionId in createUsageMeter with sub null). -/
  | typeError
  /-- Prisma update matched no row (P2025). -/
  | recordNotFound
deriving Repr, DecidableEq

/-- A row of the user table, as seen by the subscription service. -/
structure SubUserRow where
  uid : String
  subscriptionId : Option String
deriving Repr, DecidableEq

/-- A row of the subscription table. -/
structure SubscriptionRow where
  subscriptionId : String
  uid : String
  planType : String
  interval : String
  lookupKey : String
  status : String
deriving Repr, DecidableEq

/-- A row of the usage meter table.  startAt and endAt are instants
(milliseconds since the epoch, as JS Date comparisons). -/
structure UsageMeterRow where
  meterId : String
  uid : String
  subscriptionId : Option String
  startAt : Nat
  endAt : Nat
  t1TokenQuota : Nat
  t1TokenUsed : Nat
  t2TokenQuota : Nat
  t2TokenUsed : Nat
  deletedAt : Option Nat
deriving Repr, DecidableEq

/-- A row of the subscription usage quota table, keyed by plan type. -/
structure QuotaRow where
  planType : String
  t1TokenQuota : Nat
  t2TokenQuota : Nat
deriving Repr, DecidableEq

/-- A row of the token usage table (immutable usage line items). -/
structure TokenUsageRow where
  uid : String
  tier : String
  inputTokens : Nat
  outputTokens : Nat
deriving Repr, DecidableEq

/-- The persistent state touched by the subscription service. -/
structure SDB where
  users : List SubUserRow
  subscriptions : List SubscriptionRow
  usageMeters : List UsageMeterRow
  quotas : List QuotaRow
  tokenUsages : List TokenUsageRow
deriving Repr, DecidableEq

/-- Environment of the subscription service: the current instant, the JS
Date calendar arithmetic used by createUsageMeter (start of the current
day, and the same day of the next month as in
new Date(y, m + 1, d)), and the fresh meter id from genUsageMeterID. -/
structure SEnv where
  now : Nat
  startOfDay : Nat → Nat
  monthLater : Nat → Nat
  freshMeterId : String

/-- The meter predicate shared by checkTokenUsage's findFirst and
updateTokenUsage's updateMany: uid matches, startAt lte t, endAt gte t,
deletedAt null.  Note both bounds are inclusive in the source. -/
def meterActiveAt (uid : String) (t : Nat) (m : UsageMeterRow) : Bool :=
  m.uid == uid && decide (m.startAt ≤ t) && decide (t ≤ m.endAt) && m.deletedAt == none

/-- The tier list computed at the end of checkTokenUsage: a tier is
available when its used count is strictly below its quota. -/
def availableTiers (m : UsageMeterRow) : List String :=
  (if m.t1TokenUsed < m.t1TokenQuota then ["t1"] else []) ++
    (if m.t2TokenUsed < m.t2TokenQuota then ["t2"] else [])

/-- The most recent non-deleted meter of a user: findFirst where
(uid, deletedAt null) orderBy startAt desc. -/
def lastMeterOf (db : SDB) (uid : String) : Option UsageMeterRow :=
  (sortDescBy (fun m => m.startAt)
    (db.usageMeters.filter (fun m => m.uid == uid && m.deletedAt == none))).head?

/-- The createUsageMeter method of SubscriptionService.  The plan type
and quota lookup use optional chaining on sub, but the create call reads
sub.subscriptionId without it, so a null sub throws a TypeError before
any meter row is created. -/
def createUsageMeter (env : SEnv) (db : SDB) (user : SubUserRow)
    (sub : Option SubscriptionRow) (resumeLastMeter : Bool) :
    Except SErr (UsageMeterRow × SDB) :=
  let planType := jsOrDefault (sub.map (fun s => s.planType)) "free"
  let tokenQuota := db.quotas.find? (fun q => q.planType == planType)
  let startAt :=
    if resumeLastMeter then
      match lastMeterOf db user.uid with
      | some lm => lm.endAt
      | none => env.startOfDay env.now
    else env.startOfDay env.now
  match sub with
  | none => .error .typeError
  | some s =>
    let meter : UsageMeterRow :=
      { meterId := env.freshMeterId
        uid := user.uid
        subscriptionId := some s.subscriptionId
        startAt := startAt
        endAt := env.monthLater startAt
        t1TokenQuota := (tokenQuota.map (fun q => q.t1TokenQuota)).getD 0
        t1TokenUsed := 0
        t2TokenQuota := (tokenQuota.map (fun q => q.t2TokenQuota)).getD 0
        t2TokenUsed := 0
        deletedAt := none }
    .ok (meter, { db with usageMeters := db.usageMeters ++ [meter] })

/-- The checkTokenUsage method of SubscriptionService (the
checkAvailableTiers contract): find the active meter, lazily creating one
when none is found, then compare used counts against quotas. -/
def checkTokenUsage (env : SEnv) (db : SDB) (user : SubUserRow) :
    Except SErr (List String × SDB) :=
  match db.usageMeters.find? (meterActiveAt user.uid env.now) with
  | some m => .ok (availableTiers m, db)
  | none =>
    match createUsageMeter env db user none true with
    | .error e => .error e
    | .ok md => .ok (availableTiers md.1, md.2)

/-- The job data of updateTokenUsage (the reportUsage contract). -/
structure TokenUsageData where
  uid : String
  tier : String
  inputTokens : Nat
  outputTokens : Nat
  timestamp : Nat
deriving Repr, DecidableEq

/-- The per-meter effect of updateTokenUsage's updateMany: increment the
matching tier counter on meters whose window contains the timestamp. -/
def applyUsage (d : TokenUsageData) (m : UsageMeterRow) : UsageMeterRow :=
  if meterActiveAt d.uid d.timestamp m then
    if d.tier == "t1" then
      { m with t1TokenUsed := m.t1TokenUsed + (d.inputTokens + d.outputTokens) }
    else
      { m with t2TokenUsed := m.t2TokenUsed + (d.inputTokens + d.outputTokens) }
  else m

/-- The updateTokenUsage method of SubscriptionService: one transaction
that appends a token usage record and increments matching meters. -/
def updateTokenUsage (db : SDB) (d : TokenUsageData) : SDB :=
  { db with
    tokenUsages := db.tokenUsages ++ [⟨d.uid, d.tier, d.inputTokens, d.outputTokens⟩]
    usageMeters := db.usageMeters.map (applyUsage d) }

/-- Outcome of a subscription webhook handler: the JS return or throw,
and the state left behind (state written before a throw persists). -/
structure SOutcome where
  result : Except SErr Unit
  db : SDB
deriving Repr, DecidableEq

/-- The postSubscriptionCanceled method of SubscriptionService: one
transaction clearing the user's subscriptionId and soft-deleting the
subscription's meters, then createUsageMeter(user, null, false) for the
free plan. -/
def postSubscriptionCanceled (env : SEnv) (db : SDB) (sub : SubscriptionRow) :
    SOutcome :=
  match db.users.find? (fun u => u.uid == sub.uid) with
  | none => ⟨.error .recordNotFound, db⟩
  | some u0 =>
    let user := { u0 with subscriptionId := none }
    let db1 : SDB :=
      { db with
        users := db.users.map (fun u =>
          if u.uid == sub.uid then { u with subscriptionId := none } else u)
        usageMeters := db.usageMeters.map (fun m =>
          if m.subscriptionId == some sub.subscriptionId then
            { m with deletedAt := some env.now }
          else m) }
    match createUsageMeter env db1 user none false with
    | .error e => ⟨.error e, db1⟩
    | .ok md => ⟨.ok (), md.2⟩

/-- The handleSubscriptionUpdated webhook handler of
SubscriptionService: update the subscription row's status from the
event, and run the cancellation path when the new status is not
active. -/
def handleSubscriptionUpdated (env : SEnv) (db : SDB)
    (eventSubId eventStatus : String) : SOutcome :=
  match db.subscriptions.find? (fun s => s.subscriptionId == eventSubId) with
  | none => ⟨.error .recordNotFound, db⟩
  | some s0 =>
    let sub := { s0 with status := eventStatus }
    let db1 : SDB :=
      { db with subscriptions := db.subscriptions.map (fun s =>
          if s.subscriptionId == eventSubId then sub else s) }
    if sub.status != "active" then postSubscriptionCanceled env db1 sub
    else ⟨.ok (), db1⟩

/-! ### Concrete fixtures used by counterexamples and witnesses -/

/-- A knowledge-service environment in which every external call
succeeds. -/
def kEnvOk : KEnv :=
  { now := 1000
    crawl := fun _ => some ("hello world", "Crawled Title")
    uploadOk := true
    indexContentOk := true
    saveForUserOk := true
    clean := fun s => s
    countWords := fun s => (s.splitOn " ").length }

/-- The same environment with ragService.saveDataForUser throwing. -/
def kEnvSaveFails : KEnv := { kEnvOk with saveForUserOk := false }

/-- The same environment with the remote crawl throwing. -/
def kEnvCrawlFails : KEnv := { kEnvOk with crawl := fun _ => none }

/-- A freshly created weblink resource row awaiting ingestion. -/
def rowR1 : ResourceRow :=
  { resourceId := "r1", userId := 1, resourceType := "weblink", title := "Example"
    meta := some ⟨some "https://example.com", none, none, none⟩, storageKey := none
    indexStatus := "processing", wordCount := 0, isPublic := false, readOnly := true
    updatedAt := 0, deletedAt := none }

/-- A knowledge-service state with one user and one pending resource. -/
def kdb1 : KDB :=
  { users := [⟨1, "u1"⟩], resources := [rowR1], collections := [], weblinks := []
    blobs := [] }

/-- The ingestion request for rowR1: a weblink with a url and no prior
storage key or link id. -/
def reqR1 : UpsertResourceRequest :=
  { resourceId := some "r1", resourceType := "weblink", collectionId := some "c1"
    collectionName := none, title := some "Example", content := none, storageKey := none
    isPublic := none, readOnly := some true
    data := some ⟨some "https://example.com", none, none, none⟩ }

/-- A subscription-service environment. -/
def sEnv0 : SEnv :=
  { now := 5000
    startOfDay := fun n => n - n % 1000
    monthLater := fun n => n + 30000
    freshMeterId := "um_new" }

/-- A user currently pointing at subscription sub_1. -/
def sUser1 : SubUserRow := ⟨"u1", some "sub_1"⟩

/-- A subscription-service state with a user, no subscription rows and no
meters, but a free-plan quota row. -/
def sdb9 : SDB :=
  { users := [sUser1], subscriptions := [], usageMeters := []
    quotas := [⟨"free", 100, 0⟩], tokenUsages := [] }

/-- An active paid subscription for sUser1. -/
def subRow1 : SubscriptionRow :=
  ⟨"sub_1", "u1", "pro", "month", "refly_pro_monthly", "active"⟩

/-- The usage meter belonging to subscription sub_1. -/
def meterSub1 : UsageMeterRow :=
  { meterId := "um_1", uid := "u1", subscriptionId := some "sub_1", startAt := 0
    endAt := 100000, t1TokenQuota := 1000, t1TokenUsed := 10, t2TokenQuota := 1000
    t2TokenUsed := 0, deletedAt := none }

/-- A subscription-service state with the paid subscription and its
meter. -/
def sdb4 : SDB :=
  { users := [sUser1], subscriptions := [subRow1], usageMeters := [meterSub1]
    quotas := [⟨"free", 100, 0⟩, ⟨"pro", 1000, 1000⟩], tokenUsages := [] }

/-- A free meter whose window ends exactly at instant 5000. -/
def meter5 : UsageMeterRow :=
  { meterId := "um_5", uid := "u1", subscriptionId := none, startAt := 0, endAt := 5000
    t1TokenQuota := 100, t1TokenUsed := 0, t2TokenQuota := 100, t2TokenUsed := 0
    deletedAt := none }

/-- A subscription-service state holding only meter5. -/
def sdb5 : SDB :=
  { users := [sUser1], subscriptions := [], usageMeters := [meter5]
    quotas := [⟨"free", 100, 0⟩], tokenUsages := [] }

/-- A usage report of one t1 token stamped exactly at meter5's endAt. -/
def usage5 : TokenUsageData := ⟨"u1", "t1", 1, 0, 5000⟩

/-- The request of the C3 witness: a weblink with a data object holding
neither url nor linkId. -/
def reqC3 : UpsertResourceRequest :=
  { resourceId := none, resourceType := "weblink", collectionId := none
    collectionName := none, title := none, content := none, storageKey := none
    isPublic := none, readOnly := none, data := some ⟨none, none, some "T", none⟩ }

/-- The meter for the C6 witness: 99 of 100 t1 tokens used. -/
def meter6 : UsageMeterRow :=
  { meterId := "um_6", uid := "u1", subscriptionId := none, startAt := 0, endAt := 10000
    t1TokenQuota := 100, t1TokenUsed := 99, t2TokenQuota := 0, t2TokenUsed := 0
    deletedAt := none }

/-- A subscription-service state holding only meter6. -/
def sdb6 : SDB :=
  { users := [sUser1], subscriptions := [], usageMeters := [meter6]
    quotas := [⟨"free", 100, 0⟩], tokenUsages := [] }

/-- A usage report of one t1 token inside meter6's window. -/
def usage6 : TokenUsageData := ⟨"u1", "t1", 1, 0, 4000⟩

/-- A collection owned by user 1, targeted by another user's upsert. -/
def collVictim : CollectionRow :=
  { collectionId := "col_1", userId := 1, title := "Victim Collection"
    description := none, isPublic := false, resourceIds := [], updatedAt := 0
    deletedAt := none }

/-- A knowledge-service state with two users and user 1's collection. -/
def kdb7 : KDB :=
  { users := [⟨1, "u1"⟩, ⟨2, "u2"⟩], resources := [], collections := [collVictim]
    weblinks := [], blobs := [] }

/-- The acting user for the ownership counterexample: not the owner. -/
def attacker : UserRow := ⟨2, "u2"⟩

/-- A soft-deleted resource that still sits in a collection. -/
def rowDeleted : ResourceRow :=
  { resourceId := "r9", userId := 1, resourceType := "note", title := "Deleted note"
    meta := none, storageKey := none, indexStatus := "finish", wordCount := 0
    isPublic := false, readOnly := false, updatedAt := 10, deletedAt := some 5 }

/-- A live collection containing the soft-deleted resource. -/
def collWithDeleted : CollectionRow :=
  { collectionId := "col_8", userId := 1, title := "Holder", description := none
    isPublic := false, resourceIds := ["r9"], updatedAt := 0, deletedAt := none }

/-- A knowledge-service state for the soft-delete listing counterexample. -/
def kdb8 : KDB :=
  { users := [⟨1, "u1"⟩], resources := [rowDeleted], collections := [collWithDeleted]
    weblinks := [], blobs := [] }

/-! ### Helper lemmas -/

/-- The createResource normalization phase never touches the data
field. -/
theorem normalizeCreateParam_data (param0 : UpsertResourceRequest) (r c : String) :
    (normalizeCreateParam param0 r c).data = param0.data := by
  obtain ⟨rid, rt, cid, cn, ti, co, sk, ip, ro, da⟩ := param0
  unfold normalizeCreateParam
  dsimp only
  split <;> split <;> rfl

/-- The createResource normalization phase never touches the resource
type. -/
theorem normalizeCreateParam_resourceType (param0 : UpsertResourceRequest)
    (r c : String) :
    (normalizeCreateParam param0 r c).resourceType = param0.resourceType := by
  obtain ⟨rid, rt, cid, cn, ti, co, sk, ip, ro, da⟩ := param0
  unfold normalizeCreateParam
  dsimp only
  split <;> split <;> rfl

/-- blobLookup after putBlob under the same key yields the stored
value. -/
theorem blobLookup_putBlob (bs : List (String × String)) (k v : String) :
    blobLookup (putBlob bs k v) k = some v := by
  unfold blobLookup putBlob
  rw [List.find?_cons_of_pos _ (by simp)]
  rfl

/-- A truthy option is recovered by wrapping its default-extracted
value. -/
theorem truthy_some_getD (o : Option String) (h : truthy o = true) :
    some (o.getD "") = o := by
  cases o with
  | none => exact absurd h (by simp [truthy])
  | some s => rfl

/-- Shape of a successful content resolution: the final content sits in
the blob store under the final key; under a truthy resolved key nothing
was uploaded and the key is the resolved one, otherwise the key is the
deterministic one and exactly that pair was uploaded. -/
theorem resolveContent_ok (env : KEnv) (blobs : List (String × String)) (rid : String)
    (r : Resolved) (url : Option String) (cr : ContentRes)
    (h : resolveContent env blobs rid r url = .ok cr) :
    blobLookup cr.blobs cr.key = some cr.content ∧
    (truthy r.storageKey = true →
      cr.key = r.storageKey.getD "" ∧ cr.blobs = blobs ∧ cr.uploads = []) ∧
    (truthy r.storageKey = false →
      cr.key = "resource/" ++ rid ∧ cr.uploads = [(cr.key, cr.content)]) := by
  revert h
  unfold resolveContent
  split
  case isTrue hsk =>
    split
    · intro h
      exact absurd h (by simp)
    · rename_i c heq
      intro h
      obtain rfl := Except.ok.inj h
      exact ⟨heq, fun _ => ⟨rfl, rfl, rfl⟩,
        fun hf => absurd hsk (by rw [hf]; exact Bool.false_ne_true)⟩
  case isFalse hsk =>
    have hsk' : truthy r.storageKey = false := by simpa using hsk
    split
    · intro h
      exact absurd h (by simp)
    · rename_i ct heq2
      split
      case isTrue hup =>
        intro h
        obtain rfl := Except.ok.inj h
        refine ⟨blobLookup_putBlob blobs ("resource/" ++ rid) ct.1, ?_, ?_⟩
        · intro hskt
          exact absurd hskt (by rw [hsk']; exact Bool.false_ne_true)
        · intro _
          exact ⟨rfl, rfl⟩
      case isFalse hup =>
        intro h
        exact absurd h (by simp)

/-- The finalKey function names the key of a successful content
resolution. -/
theorem finalKey_eq (env : KEnv) (db : KDB) (param : UpsertResourceRequest)
    (pdata : ResourceMeta) (cr : ContentRes)
    (h : resolveContent env db.blobs (jsStr param.resourceId)
        (initResolve db param pdata) pdata.url = .ok cr) :
    finalKey db param pdata = cr.key := by
  obtain ⟨_, ht, hf⟩ := resolveContent_ok env db.blobs (jsStr param.resourceId)
    (initResolve db param pdata) pdata.url cr h
  unfold finalKey
  by_cases hsk : truthy (initResolve db param pdata).storageKey = true
  · rw [if_pos hsk, (ht hsk).1]
  · have hsk' : truthy (initResolve db param pdata).storageKey = false := by
      simpa using hsk
    rw [if_neg hsk, (hf hsk').1]

/-- Rows matching the where clause of the finishing update carry the
finish status, key, word count and normalized meta afterwards, and at
least one such row exists. -/
theorem applyFinishUpdate_spec (env : KEnv) (rs : List ResourceRow) (rid : String)
    (userId : Nat) (key content : String) (url title : Option String)
    (rs2 : List ResourceRow)
    (h : applyFinishUpdate env rs rid userId key content url title = some rs2) :
    (∃ r, r ∈ rs2 ∧ r.resourceId = rid ∧ r.userId = userId) ∧
    ∀ r ∈ rs2, r.resourceId = rid → r.userId = userId →
      r.indexStatus = "finish" ∧ r.storageKey = some key ∧
      r.wordCount = env.countWords content ∧
      r.meta = some ⟨url, none, title, some key⟩ := by
  unfold applyFinishUpdate at h
  split at h
  case isTrue hany =>
    obtain rfl := Option.some.inj h
    constructor
    · obtain ⟨a, ha, hca⟩ := List.any_eq_true.mp hany
      refine ⟨_, List.mem_map_of_mem _ ha, ?_, ?_⟩
      · rw [if_pos hca]
        rw [Bool.and_eq_true, beq_iff_eq, beq_iff_eq] at hca
        exact hca.1
      · rw [if_pos hca]
        rw [Bool.and_eq_true, beq_iff_eq, beq_iff_eq] at hca
        exact hca.2
    · intro r hr h1 h2
      obtain ⟨a, ha, rfl⟩ := List.mem_map.mp hr
      by_cases hc : (a.resourceId == rid && a.userId == userId) = true
      · rw [if_pos hc]
        exact ⟨rfl, rfl, rfl, rfl⟩
      · rw [if_neg hc] at h1 h2
        exact absurd (by rw [Bool.and_eq_true, beq_iff_eq, beq_iff_eq]; exact ⟨h1, h2⟩)
          hc
  case isFalse => simp at h

/-! ### Claim theorems -/

/-- Claim C3: a createResource call with resourceType weblink that
supplies neither a url nor a linkId (or no data object at all) throws a
BadRequestException, and it does so before any row is persisted and
before any job is enqueued: the state is returned unchanged and the
queue receives nothing. -/
theorem C3_weblink_validation (env : KEnv) (db : KDB) (user : UserRow)
    (param : UpsertResourceRequest) (freshRid freshCid : String)
    (htype : param.resourceType = "weblink")
    (hbad : param.data = none ∨
      ∃ pdata, param.data = some pdata ∧ truthy pdata.url = false ∧
        truthy pdata.linkId = false) :
    ∃ msg, createResource env db user param freshRid freshCid =
      ⟨.error (.badRequest msg), db, []⟩ := by
  rcases hbad with hnone | ⟨pdata, hdata, hurl, hlink⟩
  · refine ⟨"data is required", ?_⟩
    unfold createResource createResourceChecked
    rw [normalizeCreateParam_resourceType, htype]
    simp only [beq_self_eq_true, if_true, normalizeCreateParam_data, hnone]
  · refine ⟨"url or linkId is required", ?_⟩
    unfold createResource createResourceChecked
    rw [normalizeCreateParam_resourceType, htype]
    simp only [beq_self_eq_true, if_true, normalizeCreateParam_data, hdata]
    simp [hurl, hlink]

/-- Witness for C3: the weblink request reqC3 without url or linkId is
rejected with a BadRequestException and kdb1 is left unchanged with an
empty queue. -/
theorem C3_witness :
    (reqC3.resourceType = "weblink" ∧
      ∃ pdata, reqC3.data = some pdata ∧ truthy pdata.url = false ∧
        truthy pdata.linkId = false) ∧
    ∃ msg, createResource kEnvOk kdb1 ⟨1, "u1"⟩ reqC3 "r_new" "c_new" =
      ⟨.error (.badRequest msg), kdb1, []⟩ :=
  ⟨⟨rfl, ⟨⟨none, none, some "T", none⟩, rfl, rfl, rfl⟩⟩,
    C3_weblink_validation kEnvOk kdb1 ⟨1, "u1"⟩ reqC3 "r_new" "c_new" rfl
      (.inr ⟨⟨none, none, some "T", none⟩, rfl, rfl, rfl⟩)⟩

/-- Claim C10: when finalizeResource is invoked with a userId matching no
user, it returns normally with the state unchanged and an empty effect
log — the resource is never updated and no error reaches the job
queue. -/
theorem C10_unknown_user_noop (env : KEnv) (db : KDB) (p : FinalizeParam)
    (h : db.users.find? (fun u => u.id == p.userId) = none) :
    finalizeResource env db p = ⟨.ok (), db, emptyLog⟩ := by
  unfold finalizeResource
  rw [h]

/-- Witness for C10: a finalize job whose userId 99 matches no user in
kdb1 leaves the state untouched and raises nothing. -/
theorem C10_witness :
    (kdb1.users.find? (fun u => u.id == (FinalizeParam.mk 99 reqR1).userId) = none) ∧
    finalizeResource kEnvOk kdb1 (FinalizeParam.mk 99 reqR1) = ⟨.ok (), kdb1, emptyLog⟩ :=
  ⟨by decide, C10_unknown_user_noop kEnvOk kdb1 (FinalizeParam.mk 99 reqR1) (by decide)⟩

/-- When indexResource throws, it has not touched the resource table:
only the blob store may have changed. -/
theorem indexResource_error_resources (env : KEnv) (db : KDB) (user : UserRow)
    (param : UpsertResourceRequest) (e : KErr)
    (h : (indexResource env db user param).result = .error e) :
    (indexResource env db user param).db.resources = db.resources := by
  revert h
  unfold indexResource
  repeat' split
  all_goals intro h
  all_goals first
    | rfl
    | exact absurd h (by simp)

/-- Rows matching the where clause of the catch-block update carry the
failed status afterwards. -/
theorem applyFailedUpdate_mem (env : KEnv) (rs : List ResourceRow) (rid : String)
    (userId : Nat) (rs2 : List ResourceRow)
    (h : applyFailedUpdate env rs (some rid) userId = some rs2) :
    ∀ r ∈ rs2, r.resourceId = rid → r.userId = userId → r.indexStatus = "failed" := by
  unfold applyFailedUpdate at h
  dsimp only at h
  split at h
  · intro r hr h1 h2
    obtain rfl := Option.some.inj h
    obtain ⟨a, ha, rfl⟩ := List.mem_map.mp hr
    by_cases hc : (a.resourceId == rid && a.userId == userId) = true
    · rw [if_pos hc]
    · rw [if_neg hc] at h1 h2
      exact absurd (by rw [Bool.and_eq_true, beq_iff_eq, beq_iff_eq]; exact ⟨h1, h2⟩) hc
  · simp at h

/-- The catch-block update succeeds whenever a row matches its where
clause. -/
theorem applyFailedUpdate_some (env : KEnv) (rs : List ResourceRow) (rid : String)
    (userId : Nat)
    (hrow : rs.any (fun r => r.resourceId == rid && r.userId == userId) = true) :
    ∃ rs2, applyFailedUpdate env rs (some rid) userId = some rs2 := by
  unfold applyFailedUpdate
  dsimp only
  rw [if_pos hrow]
  exact ⟨_, rfl⟩

/-- When no storage key resolves, initial content is empty, a url is
present and the remote crawl throws, indexResource throws the crawl
error with no effects at all. -/
theorem indexResource_crawl_fail (env : KEnv) (db : KDB) (user : UserRow)
    (param : UpsertResourceRequest) (pdata : ResourceMeta)
    (hd : param.data = some pdata)
    (hsk : truthy (initResolve db param pdata).storageKey = false)
    (hc : (initResolve db param pdata).content = "")
    (hurl : truthy pdata.url = true)
    (hcrawl : env.crawl (pdata.url.getD "") = none) :
    indexResource env db user param = ⟨.error .crawlFailed, db, emptyLog⟩ := by
  have hres : resolveContent env db.blobs (jsStr param.resourceId)
      (initResolve db param pdata) pdata.url = .error .crawlFailed := by
    unfold resolveContent
    rw [if_neg (by simp [hsk])]
    rw [if_pos ⟨hc, hurl⟩, hcrawl]
  unfold indexResource
  rw [hd]
  simp only [hres]

/-- Claim C2 (amended): whenever any step of indexResource throws,
finalizeResource persists indexStatus failed on the resource row and
re-raises the original error after the status write; and in the case the
claim's spec sentence describes — content extraction throwing — no chunk
was submitted to the indexing interface.  (After a failure in a step
past the indexContent call, such as saveDataForUser, chunks have already
been submitted; see the counterexample.) -/
theorem C2_failed_status (env : KEnv) (db : KDB) (p : FinalizeParam) (user : UserRow)
    (rid : String)
    (hu : db.users.find? (fun u => u.id == p.userId) = some user)
    (hr : p.req.resourceId = some rid)
    (hrow : db.resources.any (fun r => r.resourceId == rid && r.userId == user.id)
      = true) :
    (∀ e, (indexResource env db user p.req).result = .error e →
      (finalizeResource env db p).result = .error e ∧
      ∀ r ∈ (finalizeResource env db p).db.resources,
        r.resourceId = rid → r.userId = user.id → r.indexStatus = "failed") ∧
    (∀ pdata, p.req.data = some pdata →
      truthy (initResolve db p.req pdata).storageKey = false →
      (initResolve db p.req pdata).content = "" →
      truthy pdata.url = true →
      env.crawl (pdata.url.getD "") = none →
      (finalizeResource env db p).result = .error .crawlFailed ∧
      (finalizeResource env db p).log.submittedChunks = []) := by
  constructor
  · intro e he
    have hresrc := indexResource_error_resources env db user p.req e he
    rcases hout : indexResource env db user p.req with ⟨res, dbo, logo⟩
    rw [hout] at he hresrc
    dsimp only at he hresrc
    subst he
    have hrow2 : dbo.resources.any
        (fun r => r.resourceId == rid && r.userId == user.id) = true := by
      rw [hresrc]; exact hrow
    obtain ⟨rs2, hrs2⟩ := applyFailedUpdate_some env dbo.resources rid user.id hrow2
    have hfin : finalizeResource env db p =
        ⟨.error e, { dbo with resources := rs2 },
          { logo with resourceUpdates := logo.resourceUpdates + 1 }⟩ := by
      unfold finalizeResource
      rw [hu]
      dsimp only
      rw [hout]
      dsimp only
      rw [hr, hrs2]
    rw [hfin]
    exact ⟨rfl, applyFailedUpdate_mem env dbo.resources rid user.id rs2 hrs2⟩
  · intro pdata hd hsk hc hurl hcrawl
    have hout := indexResource_crawl_fail env db user p.req pdata hd hsk hc hurl hcrawl
    obtain ⟨rs2, hrs2⟩ := applyFailedUpdate_some env db.resources rid user.id hrow
    have hfin : finalizeResource env db p =
        ⟨.error .crawlFailed, { db with resources := rs2 },
          { emptyLog with resourceUpdates := emptyLog.resourceUpdates + 1 }⟩ := by
      unfold finalizeResource
      rw [hu]
      dsimp only
      rw [hout]
      dsimp only
      rw [hr, hrs2]
    rw [hfin]
    exact ⟨rfl, rfl⟩

/-- Witness for C2's amended theorem: with the crawl throwing, the run
for resource r1 ends as failed with the crawl error re-raised and no
chunk submitted. -/
theorem C2_witness :
    (kdb1.users.find? (fun u => u.id == (FinalizeParam.mk 1 reqR1).userId)
        = some ⟨1, "u1"⟩ ∧
      reqR1.resourceId = some "r1" ∧
      kdb1.resources.any (fun r => r.resourceId == "r1" && r.userId == (1 : Nat))
        = true) ∧
    ((finalizeResource kEnvCrawlFails kdb1 ⟨1, reqR1⟩).result = .error .crawlFailed ∧
      (finalizeResource kEnvCrawlFails kdb1 ⟨1, reqR1⟩).log.submittedChunks = []) :=
  ⟨⟨by decide, rfl, by decide⟩,
    (C2_failed_status kEnvCrawlFails kdb1 ⟨1, reqR1⟩ ⟨1, "u1"⟩ "r1" (by decide) rfl
        (by decide)).2
      ⟨some "https://example.com", none, none, none⟩ rfl (by decide) (by decide) rfl
      rfl⟩

/-- Counterexample to claim C2 as stated: an ingestion run in which
ragService.saveDataForUser (a step of indexResource after the indexing
call) throws ends with the failed status persisted and the error
re-raised, yet one chunk had already been submitted to the indexing
interface — so "no chunks are submitted" does not hold for every
throwing step. -/
theorem C2_counterexample :
    (finalizeResource kEnvSaveFails kdb1 ⟨1, reqR1⟩).result = .error .saveFailed ∧
    (finalizeResource kEnvSaveFails kdb1 ⟨1, reqR1⟩).log.submittedChunks.length = 1 ∧
    ((finalizeResource kEnvSaveFails kdb1 ⟨1, reqR1⟩).db.resources.map
      (fun r => r.indexStatus)) = ["failed"] := by decide

/-- Claim C4 at its failing input: a customer.subscription.updated event
with status canceled for known subscription sub_1 clears the user's
subscriptionId and soft-deletes the subscription's meter, but then
createUsageMeter(user, null, false) reads sub.subscriptionId on null and
throws a TypeError, so no free-tier meter is ever created. -/
theorem C4_cancel_throws_before_free_meter :
    (handleSubscriptionUpdated sEnv0 sdb4 "sub_1" "canceled").result
      = .error .typeError ∧
    ((handleSubscriptionUpdated sEnv0 sdb4 "sub_1" "canceled").db.users.map
      (fun u => u.subscriptionId)) = [none] ∧
    ((handleSubscriptionUpdated sEnv0 sdb4 "sub_1" "canceled").db.usageMeters.map
      (fun m => m.deletedAt)) = [some 5000] ∧
    (handleSubscriptionUpdated sEnv0 sdb4 "sub_1" "canceled").db.usageMeters.length
      = sdb4.usageMeters.length := by decide

/-- Counterexample to claim C5 as stated: a usage report stamped exactly
at a meter's endAt is matched — updateTokenUsage increments that meter
and checkTokenUsage at now = endAt still finds it — so the window is not
half-open. -/
theorem C5_counterexample :
    usage5.timestamp = meter5.endAt ∧
    ((updateTokenUsage sdb5 usage5).usageMeters.map (fun m => m.t1TokenUsed)) = [1] ∧
    checkTokenUsage sEnv0 sdb5 sUser1 = .ok (["t1", "t2"], sdb5) := by decide

/-- Claim C5 (amended): the meter window is closed on both ends.  A meter
is matched by the shared where clause exactly when
startAt ≤ t ≤ endAt (with matching uid and no soft-delete); a matched
meter is the one updateTokenUsage increments, an unmatched meter is left
untouched, and checkTokenUsage returns the tiers of a found meter —
without lazy creation — whenever some meter matches at now.  In
particular a meter whose endAt equals t IS matched. -/
theorem C5_closed_window (env : SEnv) (db : SDB) (user : SubUserRow)
    (d : TokenUsageData) (i : Nat) (h : i < db.usageMeters.length)
    (h2 : i < (updateTokenUsage db d).usageMeters.length) :
    (meterActiveAt d.uid d.timestamp (db.usageMeters.get ⟨i, h⟩) = true ↔
      ((db.usageMeters.get ⟨i, h⟩).uid = d.uid ∧
        (db.usageMeters.get ⟨i, h⟩).startAt ≤ d.timestamp ∧
        d.timestamp ≤ (db.usageMeters.get ⟨i, h⟩).endAt ∧
        (db.usageMeters.get ⟨i, h⟩).deletedAt = none)) ∧
    (meterActiveAt d.uid d.timestamp (db.usageMeters.get ⟨i, h⟩) = true →
      d.tier = "t1" →
      ((updateTokenUsage db d).usageMeters.get ⟨i, h2⟩).t1TokenUsed =
        (db.usageMeters.get ⟨i, h⟩).t1TokenUsed + (d.inputTokens + d.outputTokens)) ∧
    (meterActiveAt d.uid d.timestamp (db.usageMeters.get ⟨i, h⟩) = false →
      (updateTokenUsage db d).usageMeters.get ⟨i, h2⟩ = db.usageMeters.get ⟨i, h⟩) ∧
    ((∃ m, m ∈ db.usageMeters ∧ meterActiveAt user.uid env.now m = true) →
      ∃ m, db.usageMeters.find? (meterActiveAt user.uid env.now) = some m ∧
        meterActiveAt user.uid env.now m = true ∧
        checkTokenUsage env db user = .ok (availableTiers m, db)) := by
  have hget : (updateTokenUsage db d).usageMeters.get ⟨i, h2⟩ =
      applyUsage d (db.usageMeters.get ⟨i, h⟩) := by
    show (db.usageMeters.map (applyUsage d)).get ⟨i, h2⟩ = _
    simp only [List.get_eq_getElem, List.getElem_map]
  refine ⟨?_, ?_, ?_, ?_⟩
  · unfold meterActiveAt
    rw [Bool.and_eq_true, Bool.and_eq_true, Bool.and_eq_true]
    constructor
    · rintro ⟨⟨⟨hu, h1⟩, h3⟩, h4⟩
      exact ⟨by simpa using hu, by simpa using h1, by simpa using h3, by simpa using h4⟩
    · rintro ⟨hu, h1, h3, h4⟩
      exact ⟨⟨⟨by simpa using hu, by simpa using h1⟩, by simpa using h3⟩,
        by simpa using h4⟩
  · intro hact htier
    rw [hget]
    unfold applyUsage
    rw [if_pos hact, if_pos (by rw [beq_iff_eq]; exact htier)]
  · intro hact
    rw [hget]
    unfold applyUsage
    rw [if_neg (by rw [hact]; exact Bool.false_ne_true)]
  · intro hex
    have hsome : (db.usageMeters.find? (meterActiveAt user.uid env.now)).isSome :=
      List.find?_isSome.mpr (by
        obtain ⟨m, hm, hma⟩ := hex
        exact ⟨m, hm, hma⟩)
    obtain ⟨m, hm⟩ := Option.isSome_iff_exists.mp hsome
    refine ⟨m, hm, List.find?_some hm, ?_⟩
    unfold checkTokenUsage
    rw [hm]

/-- Witness for C5's amended theorem: the meter whose endAt is exactly
the report's timestamp gets its t1 counter incremented. -/
theorem C5_witness :
    (usage5.tier = "t1" ∧
      meterActiveAt usage5.uid usage5.timestamp meter5 = true ∧
      usage5.timestamp = meter5.endAt) ∧
    ((updateTokenUsage sdb5 usage5).usageMeters.get ⟨0, by decide⟩).t1TokenUsed =
      meter5.t1TokenUsed + (usage5.inputTokens + usage5.outputTokens) :=
  ⟨⟨rfl, by decide, by decide⟩, by
    have hall := C5_closed_window sEnv0 sdb5 sUser1 usage5 0 (by decide) (by decide)
    exact hall.2.1 (by decide) rfl⟩

/-- The meter-window predicate only reads fields that applyUsage keeps
unchanged. -/
theorem meterActiveAt_applyUsage (u : String) (t : Nat) (d : TokenUsageData)
    (m : UsageMeterRow) :
    meterActiveAt u t (applyUsage d m) = meterActiveAt u t m := by
  unfold applyUsage
  split
  · split <;> rfl
  · rfl

/-- find? commutes with mapping a function that preserves the
predicate. -/
theorem find_map_pres {α : Type} (p : α → Bool) (f : α → α) (l : List α)
    (hpf : ∀ x, p (f x) = p x) :
    (l.map f).find? p = (l.find? p).map f := by
  induction l with
  | nil => rfl
  | cons a t ih =>
    by_cases hpa : p a = true
    · rw [List.map_cons, List.find?_cons_of_pos _ (by rw [hpf]; exact hpa),
        List.find?_cons_of_pos _ hpa]
      rfl
    · have hpa' : ¬ p a := hpa
      rw [List.map_cons, List.find?_cons_of_neg _ (by rw [hpf]; exact hpa'),
        List.find?_cons_of_neg _ hpa', ih]

/-- Claim C6: on the active meter found by checkTokenUsage, with
t1TokenUsed + 1 = t1TokenQuota, tier t1 is reported available; after a
single reportUsage of one t1 token landing in that meter's window, tier
t1 is no longer reported. -/
theorem C6_quota_boundary (env : SEnv) (db : SDB) (user : SubUserRow)
    (m : UsageMeterRow) (d : TokenUsageData)
    (hfind : db.usageMeters.find? (meterActiveAt user.uid env.now) = some m)
    (hq : m.t1TokenUsed + 1 = m.t1TokenQuota)
    (hduid : d.uid = user.uid) (htier : d.tier = "t1")
    (hone : d.inputTokens + d.outputTokens = 1)
    (hts1 : m.startAt ≤ d.timestamp) (hts2 : d.timestamp ≤ m.endAt) :
    (∃ ts, checkTokenUsage env db user = .ok (ts, db) ∧ "t1" ∈ ts) ∧
    (∃ ts, checkTokenUsage env (updateTokenUsage db d) user
        = .ok (ts, updateTokenUsage db d) ∧ "t1" ∉ ts) := by
  have hpm : meterActiveAt user.uid env.now m = true := List.find?_some hfind
  have hpm' := hpm
  unfold meterActiveAt at hpm'
  rw [Bool.and_eq_true, Bool.and_eq_true, Bool.and_eq_true] at hpm'
  obtain ⟨⟨⟨hu, _⟩, _⟩, hdel⟩ := hpm'
  have hmuid : m.uid = user.uid := by simpa using hu
  have hmdel : m.deletedAt = none := by simpa using hdel
  constructor
  · refine ⟨availableTiers m, ?_, ?_⟩
    · unfold checkTokenUsage
      rw [hfind]
    · unfold availableTiers
      rw [if_pos (by omega)]
      exact List.mem_append.mpr (.inl (List.mem_singleton.mpr rfl))
  · have hact : meterActiveAt d.uid d.timestamp m = true := by
      unfold meterActiveAt
      rw [Bool.and_eq_true, Bool.and_eq_true, Bool.and_eq_true]
      refine ⟨⟨⟨?_, ?_⟩, ?_⟩, ?_⟩
      · rw [beq_iff_eq, hmuid, hduid]
      · exact decide_eq_true hts1
      · exact decide_eq_true hts2
      · rw [hmdel]; rfl
    have hfind2 : (updateTokenUsage db d).usageMeters.find?
        (meterActiveAt user.uid env.now) = some (applyUsage d m) := by
      show (db.usageMeters.map (applyUsage d)).find? _ = _
      rw [find_map_pres _ _ _ (fun x => meterActiveAt_applyUsage user.uid env.now d x),
        hfind]
      rfl
    have happ : applyUsage d m =
        { m with t1TokenUsed := m.t1TokenUsed + (d.inputTokens + d.outputTokens) } := by
      unfold applyUsage
      rw [if_pos hact, if_pos (by rw [beq_iff_eq]; exact htier)]
    refine ⟨availableTiers (applyUsage d m), ?_, ?_⟩
    · unfold checkTokenUsage
      rw [hfind2]
    · rw [happ]
      unfold availableTiers
      rw [if_neg (by dsimp only; omega)]
      intro hmem
      rcases List.mem_append.mp hmem with hin | hin
      · exact absurd hin (List.not_mem_nil "t1")
      · revert hin
        split
        · intro hin
          exact absurd (List.mem_singleton.mp hin) (by decide)
        · intro hin
          exact absurd hin (List.not_mem_nil "t1")

/-- Witness for C6: with meter6 at 99 of 100, t1 is available, and after
one reported t1 token it no longer is. -/
theorem C6_witness :
    (sdb6.usageMeters.find? (meterActiveAt sUser1.uid sEnv0.now) = some meter6 ∧
      meter6.t1TokenUsed + 1 = meter6.t1TokenQuota ∧
      usage6.inputTokens + usage6.outputTokens = 1) ∧
    ((∃ ts, checkTokenUsage sEnv0 sdb6 sUser1 = .ok (ts, sdb6) ∧ "t1" ∈ ts) ∧
      (∃ ts, checkTokenUsage sEnv0 (updateTokenUsage sdb6 usage6) sUser1
          = .ok (ts, updateTokenUsage sdb6 usage6) ∧ "t1" ∉ ts)) :=
  ⟨⟨by decide, by decide, by decide⟩,
    C6_quota_boundary sEnv0 sdb6 sUser1 meter6 usage6 (by decide) (by decide) rfl rfl
      (by decide) (by decide) (by decide)⟩

/-- Claim C7 at its failing input: user 2 calls upsertCollection with the
collectionId of a collection owned by user 1; the upsert's update branch
matches on collectionId alone, so the call succeeds and rewrites user 1's
collection title instead of failing with an authorization error. -/
theorem C7_upsert_no_ownership_check :
    ((upsertCollection kEnvOk kdb7 attacker
        ⟨some "col_1", some "hacked", none, none⟩ "fresh_cid").collections.map
      (fun c => (c.userId, c.title))) = [(1, "hacked")] ∧
    attacker.id = 2 ∧ collVictim.userId = 1 := by decide

/-- Claim C8 at its failing input: listing resources scoped to a
collectionId returns a soft-deleted resource, because the deletedAt
filter is applied to the collection rows but not to the included
resources; the unscoped listing of the same state correctly excludes
it. -/
theorem C8_collection_listing_returns_soft_deleted :
    listResources kdb8 ⟨none, some "col_8", none, none⟩ = [rowDeleted] ∧
    rowDeleted.deletedAt = some 5 ∧
    listResources kdb8 ⟨none, none, none, none⟩ = [] := by decide

/-- Claim C9 at its failing input: for a user with no active meter, the
first checkTokenUsage call reaches the lazy-creation path and throws a
TypeError (createUsageMeter reads sub.subscriptionId with sub null)
instead of creating a meter and returning a tier set. -/
theorem C9_lazy_create_throws :
    checkTokenUsage sEnv0 sdb9 sUser1 = .error .typeError := by decide

/-- Claim C1: every indexResource run that returns without throwing has
performed exactly one resource update, setting indexStatus finish,
storageKey, a wordCount computed from the final content, and a meta
object (url, title, storageKey) whose storageKey equals the key under
which the content actually sits in the blob store — the resolved
pre-existing key when one was truthy (with no upload performed),
otherwise resource/<resourceId>, to which exactly one upload was
performed. -/
theorem C1_success_update (env : KEnv) (db : KDB) (user : UserRow)
    (param : UpsertResourceRequest)
    (hok : (indexResource env db user param).result = .ok ()) :
    ∃ pdata rid c,
      param.data = some pdata ∧ param.resourceId = some rid ∧
      (indexResource env db user param).log.resourceUpdates = 1 ∧
      blobLookup (indexResource env db user param).db.blobs (finalKey db param pdata)
        = some c ∧
      (∃ r, r ∈ (indexResource env db user param).db.resources ∧
        r.resourceId = rid ∧ r.userId = user.id) ∧
      (∀ r ∈ (indexResource env db user param).db.resources,
        r.resourceId = rid → r.userId = user.id →
          r.indexStatus = "finish" ∧
          r.storageKey = some (finalKey db param pdata) ∧
          r.wordCount = env.countWords c ∧
          ∃ t, r.meta = some ⟨pdata.url, none, t, some (finalKey db param pdata)⟩) ∧
      (truthy (initResolve db param pdata).storageKey = false →
        finalKey db param pdata = "resource/" ++ rid ∧
        (indexResource env db user param).log.uploads
          = [(finalKey db param pdata, c)]) ∧
      (truthy (initResolve db param pdata).storageKey = true →
        some (finalKey db param pdata) = (initResolve db param pdata).storageKey ∧
        (indexResource env db user param).log.uploads = []) := by
  revert hok
  unfold indexResource
  split
  · intro hok
    exact absurd hok (by simp)
  · rename_i pdata hd
    split
    · intro hok
      exact absurd hok (by simp)
    · rename_i cr hres
      split
      · intro hok
        exact absurd hok (by simp)
      · rename_i submitted saved uu hist
        split
        · intro hok
          exact absurd hok (by simp)
        · rename_i ridv hrid
          split
          · intro hok
            exact absurd hok (by simp)
          · rename_i rs happ
            intro _
            dsimp only
            have hko := finalKey_eq env db param pdata cr hres
            obtain ⟨hlook, ht, hf⟩ := resolveContent_ok env db.blobs
              (jsStr param.resourceId) (initResolve db param pdata) pdata.url cr hres
            obtain ⟨hex, hall⟩ := applyFinishUpdate_spec env db.resources ridv user.id
              cr.key cr.content pdata.url cr.title rs happ
            refine ⟨pdata, ridv, cr.content, hd, hrid, rfl, ?_, hex, ?_, ?_, ?_⟩
            · rw [hko]
              exact hlook
            · intro r hr h1 h2
              obtain ⟨hst, hsk2, hwc, hmeta⟩ := hall r hr h1 h2
              rw [hko]
              exact ⟨hst, hsk2, hwc, ⟨cr.title, hmeta⟩⟩
            · intro hskf
              obtain ⟨hkey, hupl⟩ := hf hskf
              constructor
              · rw [hko, hkey, hrid]
                rfl
              · rw [hko]
                exact hupl
            · intro hskt
              obtain ⟨hkey, hblobs, hupl⟩ := ht hskt
              constructor
              · rw [hko, hkey]
                exact truthy_some_getD _ hskt
              · exact hupl

/-- Witness for C1: the successful ingestion of weblink r1 in kdb1 under
kEnvOk satisfies every conclusion of the success theorem. -/
theorem C1_witness :
    (indexResource kEnvOk kdb1 ⟨1, "u1"⟩ reqR1).result = .ok () ∧
    ∃ pdata rid c,
      reqR1.data = some pdata ∧ reqR1.resourceId = some rid ∧
      (indexResource kEnvOk kdb1 ⟨1, "u1"⟩ reqR1).log.resourceUpdates = 1 ∧
      blobLookup (indexResource kEnvOk kdb1 ⟨1, "u1"⟩ reqR1).db.blobs
        (finalKey kdb1 reqR1 pdata) = some c ∧
      (∃ r, r ∈ (indexResource kEnvOk kdb1 ⟨1, "u1"⟩ reqR1).db.resources ∧
        r.resourceId = rid ∧ r.userId = (UserRow.mk 1 "u1").id) ∧
      (∀ r ∈ (indexResource kEnvOk kdb1 ⟨1, "u1"⟩ reqR1).db.resources,
        r.resourceId = rid → r.userId = (UserRow.mk 1 "u1").id →
          r.indexStatus = "finish" ∧
          r.storageKey = some (finalKey kdb1 reqR1 pdata) ∧
          r.wordCount = kEnvOk.countWords c ∧
          ∃ t, r.meta = some ⟨pdata.url, none, t, some (finalKey kdb1 reqR1 pdata)⟩) ∧
      (truthy (initResolve kdb1 reqR1 pdata).storageKey = false →
        finalKey kdb1 reqR1 pdata = "resource/" ++ rid ∧
        (indexResource kEnvOk kdb1 ⟨1, "u1"⟩ reqR1).log.uploads
          = [(finalKey kdb1 reqR1 pdata, c)]) ∧
      (truthy (initResolve kdb1 reqR1 pdata).storageKey = true →
        some (finalKey kdb1 reqR1 pdata) = (initResolve kdb1 reqR1 pdata).storageKey ∧
        (indexResource kEnvOk kdb1 ⟨1, "u1"⟩ reqR1).log.uploads = []) :=
  ⟨by decide, C1_success_update kEnvOk kdb1 ⟨1, "u1"⟩ reqR1 (by decide)⟩

end Refly
